import Mathlib

/-!
Shallow embedding of `src/multi_tool_agent/agent.py`: the two lookup tools
`get_weather` and `get_current_time` and the dict-shaped results they return.
Python dicts with string keys and string values are embedded as ordered
association lists `List (String × String)`; the ambient effects a call can
observe (the wall-clock read and timezone resolution, which may fail) are
made explicit as a `World` parameter.
-/

/-- A zoned wall-clock reading, the components that the strftime pattern
`"%Y-%m-%d %H:%M:%S %Z%z"` of the source consumes: calendar date, time of
day, zone abbreviation (`%Z`) and UTC offset (`%z`). -/
structure ZonedDateTime where
  year : Nat
  month : Nat
  day : Nat
  hour : Nat
  minute : Nat
  second : Nat
  tzAbbrev : String
  utcOffset : String
deriving DecidableEq

/-- Outcome of `ZoneInfo(tz_identifier)` followed by `datetime.datetime.now(tz)`:
either a zoned clock reading, or a raised exception `e` carrying the message
`str(e)`. -/
inductive ClockOutcome where
  | ok (dt : ZonedDateTime)
  | fail (msg : String)
deriving DecidableEq

/-- The ambient state a tool call runs in.  The only effectful input either
tool reads is the clock / timezone database. -/
structure World where
  clock : ClockOutcome
deriving DecidableEq

/-- The decimal digit character for `n` (meaningful for `n < 10`). -/
def digitChar (n : Nat) : Char := Char.ofNat (48 + n)

/-- Two-digit zero-padded decimal rendering, as CPython strftime `%m`, `%d`,
`%H`, `%M`, `%S` produce. -/
def fmt2 (n : Nat) : String :=
  String.mk [digitChar (n / 10 % 10), digitChar (n % 10)]

/-- Four-digit decimal rendering of the year, as CPython strftime `%Y`
produces for in-range years. -/
def fmt4 (n : Nat) : String :=
  String.mk [digitChar (n / 1000 % 10), digitChar (n / 100 % 10),
             digitChar (n / 10 % 10), digitChar (n % 10)]

/-- CPython `now.strftime("%Y-%m-%d %H:%M:%S %Z%z")`, the exact pattern used
in `get_current_time`. -/
def strftimeYmdHMSZz (dt : ZonedDateTime) : String :=
  fmt4 dt.year ++ "-" ++ fmt2 dt.month ++ "-" ++ fmt2 dt.day ++ " " ++
  fmt2 dt.hour ++ ":" ++ fmt2 dt.minute ++ ":" ++ fmt2 dt.second ++ " " ++
  dt.tzAbbrev ++ dt.utcOffset

/-- Python `str.lower()` as applied by both tools (`city.lower()`): lowercase
the string character by character. -/
def pyLower (s : String) : String := String.mk (s.data.map Char.toLower)

/-- The fixed success report of `get_weather`, verbatim from the source. -/
def weatherReport : String :=
  "The weather in New York is sunny with a temperature of 25 degrees Celsius (77 degrees Fahrenheit)."

/-- Embedding of `get_weather` from `src/multi_tool_agent/agent.py`.  The
`print` diagnostics do not affect the returned dict and are dropped; the
returned dict is the ordered association list of its entries.  The `World`
parameter is deliberately unread: the source consults no ambient state. -/
def get_weather (w : World) (city : String) : List (String × String) :=
  if pyLower city = "new york" then
    [("status", "success"), ("report", weatherReport)]
  else
    [("status", "error"),
     ("error_message", "Weather information for '" ++ city ++ "' is not available.")]

/-- Embedding of `get_current_time` from `src/multi_tool_agent/agent.py`.
For an unsupported city the function returns early with an error dict.  For
`"new york"` (after lowercasing) the `try` block resolves the timezone and
reads the clock — modelled by `w.clock` — and on a raised exception the
`except` arm builds the error dict from `str(e)`. -/
def get_current_time (w : World) (city : String) : List (String × String) :=
  if pyLower city = "new york" then
    match w.clock with
    | ClockOutcome.ok dt =>
        [("status", "success"),
         ("report", "The current time in " ++ city ++ " is " ++ strftimeYmdHMSZz dt)]
    | ClockOutcome.fail msg =>
        [("status", "error"),
         ("error_message", "Error getting time for " ++ city ++ ": " ++ msg)]
  else
    [("status", "error"),
     ("error_message", "Sorry, I don't have timezone information for " ++ city ++ ".")]

/-- `m.lookup k` for an embedded dict: the value at key `k`, if present. -/
def dictGet (m : List (String × String)) (k : String) : Option String :=
  List.lookup k m

/-- A character is a decimal digit. -/
def isDigitCh (c : Char) : Bool := 48 ≤ c.toNat && c.toNat ≤ 57

/-- A ten-character list of the shape `YYYY-MM-DD`. -/
def isDateChars : List Char → Bool
  | [y1, y2, y3, y4, d1, m1, m2, d2, a1, a2] =>
      isDigitCh y1 && isDigitCh y2 && isDigitCh y3 && isDigitCh y4 &&
      (d1 == '-') && isDigitCh m1 && isDigitCh m2 && (d2 == '-') &&
      isDigitCh a1 && isDigitCh a2
  | _ => false

/-- A string of the shape `YYYY-MM-DD`. -/
def isDateString (s : String) : Bool := isDateChars s.data

/-- An eight-character list of the shape `HH:MM:SS`. -/
def isTimeChars : List Char → Bool
  | [h1, h2, k1, m1, m2, k2, s1, s2] =>
      isDigitCh h1 && isDigitCh h2 && (k1 == ':') && isDigitCh m1 &&
      isDigitCh m2 && (k2 == ':') && isDigitCh s1 && isDigitCh s2
  | _ => false

/-- A string of the shape `HH:MM:SS`. -/
def isTimeString (s : String) : Bool := isTimeChars s.data

lemma str_append_assoc (a b c : String) : a ++ b ++ c = a ++ (b ++ c) := by
  apply String.ext
  simp [String.data_append]

lemma ne_empty_of_length_pos (s : String) (h : 0 < s.length) : s ≠ "" := by
  intro he
  rw [he] at h
  have h0 : ("" : String).length = 0 := rfl
  omega

lemma length_pos_append_left (a b : String) (h : 0 < a.length) : 0 < (a ++ b).length := by
  rw [String.length_append]
  omega

lemma prepend_ne_empty (a b : String) (ha : 0 < a.length) : a ++ b ≠ "" :=
  ne_empty_of_length_pos _ (length_pos_append_left _ _ ha)

lemma isDigitCh_digitChar_mod (x : Nat) : isDigitCh (digitChar (x % 10)) = true := by
  have h : x % 10 < 10 := Nat.mod_lt x (by decide)
  revert h
  generalize x % 10 = r
  intro h
  interval_cases r <;> decide

lemma dash_data : ("-" : String).data = ['-'] := rfl

lemma colon_data : (":" : String).data = [':'] := rfl

lemma isDateString_fmt (y m d : Nat) :
    isDateString (fmt4 y ++ "-" ++ fmt2 m ++ "-" ++ fmt2 d) = true := by
  simp [isDateString, fmt4, fmt2, String.data_append, dash_data, isDateChars,
    isDigitCh_digitChar_mod]

lemma isTimeString_fmt (h m s : Nat) :
    isTimeString (fmt2 h ++ ":" ++ fmt2 m ++ ":" ++ fmt2 s) = true := by
  simp [isTimeString, fmt2, String.data_append, colon_data, isTimeChars,
    isDigitCh_digitChar_mod]

example : dictGet (get_weather ⟨ClockOutcome.fail "e"⟩ "New York") "report" = some weatherReport := by
  decide

example : dictGet (get_weather ⟨ClockOutcome.fail "e"⟩ "London") "status" = some "error" := by
  decide

example :
    dictGet (get_current_time ⟨ClockOutcome.ok ⟨2025, 1, 2, 3, 4, 5, "EST", "-0500"⟩⟩ "new york") "report" =
      some "The current time in new york is 2025-01-02 03:04:05 EST-0500" := by
  decide

/-- Claim C1: for every input string `city` (and every ambient world), both
`get_weather` and `get_current_time` return a mapping whose `"status"` key is
exactly `"success"` or `"error"`; with status `"success"` the mapping carries
a string-valued `"report"`, and with status `"error"` a string-valued
`"error_message"`. -/
theorem status_key_contract (w : World) (city : String) :
    ((dictGet (get_weather w city) "status" = some "success" ∧
        ∃ r, dictGet (get_weather w city) "report" = some r) ∨
      (dictGet (get_weather w city) "status" = some "error" ∧
        ∃ e, dictGet (get_weather w city) "error_message" = some e)) ∧
    ((dictGet (get_current_time w city) "status" = some "success" ∧
        ∃ r, dictGet (get_current_time w city) "report" = some r) ∨
      (dictGet (get_current_time w city) "status" = some "error" ∧
        ∃ e, dictGet (get_current_time w city) "error_message" = some e)) := by
  obtain ⟨clock⟩ := w
  by_cases h : pyLower city = "new york" <;> cases clock <;>
    simp [get_weather, get_current_time, dictGet, List.lookup, h]

/-- Claim C2: for every input string `city` (and every ambient world), the
mapping returned by either tool carries exactly one of the keys `"report"`
and `"error_message"` — never both, never neither — and the present value is
a non-empty string. -/
theorem exactly_one_payload (w : World) (city : String) :
    (((∃ r, dictGet (get_weather w city) "report" = some r ∧ r ≠ "") ∧
        dictGet (get_weather w city) "error_message" = none) ∨
      ((∃ e, dictGet (get_weather w city) "error_message" = some e ∧ e ≠ "") ∧
        dictGet (get_weather w city) "report" = none)) ∧
    (((∃ r, dictGet (get_current_time w city) "report" = some r ∧ r ≠ "") ∧
        dictGet (get_current_time w city) "error_message" = none) ∨
      ((∃ e, dictGet (get_current_time w city) "error_message" = some e ∧ e ≠ "") ∧
        dictGet (get_current_time w city) "report" = none)) := by
  obtain ⟨clock⟩ := w
  constructor
  · by_cases h : pyLower city = "new york"
    · left
      refine ⟨⟨weatherReport, ?_, by decide⟩, ?_⟩ <;>
        simp [get_weather, dictGet, h, List.lookup]
    · right
      refine ⟨⟨"Weather information for '" ++ city ++ "' is not available.", ?_, ?_⟩, ?_⟩
      · simp [get_weather, dictGet, h, List.lookup]
      · exact prepend_ne_empty _ _ (length_pos_append_left _ _ (by decide))
      · simp [get_weather, dictGet, h, List.lookup]
  · by_cases h : pyLower city = "new york"
    · cases clock with
      | ok dt =>
          left
          refine ⟨⟨"The current time in " ++ city ++ " is " ++ strftimeYmdHMSZz dt, ?_, ?_⟩, ?_⟩
          · simp [get_current_time, dictGet, h, List.lookup]
          · exact prepend_ne_empty _ _
              (length_pos_append_left _ _ (length_pos_append_left _ _ (by decide)))
          · simp [get_current_time, dictGet, h, List.lookup]
      | fail msg =>
          right
          refine ⟨⟨"Error getting time for " ++ city ++ ": " ++ msg, ?_, ?_⟩, ?_⟩
          · simp [get_current_time, dictGet, h, List.lookup]
          · exact prepend_ne_empty _ _
              (length_pos_append_left _ _ (length_pos_append_left _ _ (by decide)))
          · simp [get_current_time, dictGet, h, List.lookup]
    · right
      refine ⟨⟨"Sorry, I don't have timezone information for " ++ city ++ ".", ?_, ?_⟩, ?_⟩
      · simp [get_current_time, dictGet, h, List.lookup]
      · exact prepend_ne_empty _ _ (length_pos_append_left _ _ (by decide))
      · simp [get_current_time, dictGet, h, List.lookup]

/-- Claim C3: for every input `city` whose lowercasing differs from
`"new york"`, `get_weather` returns the error dict whose `error_message` is
exactly `Weather information for '<city>' is not available.` with the original
input embedded verbatim. -/
theorem weather_unsupported_message (w : World) (city : String)
    (h : pyLower city ≠ "new york") :
    get_weather w city =
      [("status", "error"),
       ("error_message", "Weather information for '" ++ city ++ "' is not available.")] := by
  simp [get_weather, h]

/-- Witness for C3 at the concrete input `"London"`. -/
theorem weather_unsupported_message_witness :
    get_weather ⟨ClockOutcome.fail "boom"⟩ "London" =
      [("status", "error"),
       ("error_message", "Weather information for '" ++ "London" ++ "' is not available.")] :=
  weather_unsupported_message ⟨ClockOutcome.fail "boom"⟩ "London" (by decide)

/-- Claim C4: for every input `city` whose lowercasing differs from
`"new york"`, `get_current_time` returns the error dict whose `error_message`
is exactly `Sorry, I don't have timezone information for <city>.`; in
particular at `"London"` (see the witness). -/
theorem time_unsupported_message (w : World) (city : String)
    (h : pyLower city ≠ "new york") :
    get_current_time w city =
      [("status", "error"),
       ("error_message", "Sorry, I don't have timezone information for " ++ city ++ ".")] := by
  simp [get_current_time, h]

/-- Witness for C4 at the concrete input `"London"`: the error message is the
exact sentence of the claim. -/
theorem time_unsupported_message_witness :
    get_current_time ⟨ClockOutcome.fail "boom"⟩ "London" =
      [("status", "error"),
       ("error_message", "Sorry, I don't have timezone information for London.")] := by
  rw [time_unsupported_message ⟨ClockOutcome.fail "boom"⟩ "London" (by decide)]
  decide

/-- Claim C5: a timezone-resolution or clock-read failure for a supported city
never escapes `get_current_time`: when `pyLower city = "new york"` and the
clock read raises with message `e`, the call still returns a dict, with status
`"error"` and an `error_message` embedding the failure description `e`. -/
theorem time_failure_caught (w : World) (city : String) (e : String)
    (h : pyLower city = "new york") (hc : w.clock = ClockOutcome.fail e) :
    get_current_time w city =
      [("status", "error"),
       ("error_message", "Error getting time for " ++ city ++ ": " ++ e)] := by
  simp [get_current_time, h, hc]

/-- Witness for C5 at `"New York"` with a failing clock. -/
theorem time_failure_caught_witness :
    get_current_time ⟨ClockOutcome.fail "No time zone found"⟩ "New York" =
      [("status", "error"),
       ("error_message", "Error getting time for " ++ "New York" ++ ": " ++ "No time zone found")] :=
  time_failure_caught ⟨ClockOutcome.fail "No time zone found"⟩ "New York"
    "No time zone found" (by decide) rfl

/-- Claim C6: any two inputs that both lowercase to `"new york"` make
`get_weather` return the identical success dict with the identical fixed
report string, whatever the ambient worlds. -/
theorem weather_case_insensitive (w₁ w₂ : World) (c₁ c₂ : String)
    (h₁ : pyLower c₁ = "new york") (h₂ : pyLower c₂ = "new york") :
    get_weather w₁ c₁ = get_weather w₂ c₂ ∧
    get_weather w₁ c₁ = [("status", "success"), ("report", weatherReport)] := by
  simp [get_weather, h₁, h₂]

/-- Witness for C6 at `"New York"` and `"NEW YORK"`. -/
theorem weather_case_insensitive_witness :
    get_weather ⟨ClockOutcome.fail "a"⟩ "New York" =
        get_weather ⟨ClockOutcome.fail "b"⟩ "NEW YORK" ∧
    get_weather ⟨ClockOutcome.fail "a"⟩ "New York" =
        [("status", "success"), ("report", weatherReport)] :=
  weather_case_insensitive ⟨ClockOutcome.fail "a"⟩ ⟨ClockOutcome.fail "b"⟩
    "New York" "NEW YORK" (by decide) (by decide)

/-- Claim C7: when the lowercased input is `"new york"` and the clock read
yields the reading `dt`, `get_current_time` returns status `"success"` and a
report containing a `YYYY-MM-DD` date and an `HH:MM:SS` time, laid out by the
strftime pattern of the source. -/
theorem time_success_report_format (w : World) (city : String) (dt : ZonedDateTime)
    (h : pyLower city = "new york") (hc : w.clock = ClockOutcome.ok dt) :
    dictGet (get_current_time w city) "status" = some "success" ∧
    ∃ pre d mid t suf,
      dictGet (get_current_time w city) "report" = some (pre ++ d ++ mid ++ t ++ suf) ∧
      isDateString d = true ∧ isTimeString t = true := by
  refine ⟨?_, "The current time in " ++ city ++ " is ",
    fmt4 dt.year ++ "-" ++ fmt2 dt.month ++ "-" ++ fmt2 dt.day, " ",
    fmt2 dt.hour ++ ":" ++ fmt2 dt.minute ++ ":" ++ fmt2 dt.second,
    " " ++ dt.tzAbbrev ++ dt.utcOffset, ?_, isDateString_fmt _ _ _, isTimeString_fmt _ _ _⟩
  · simp [get_current_time, dictGet, h, hc, List.lookup]
  · simp [get_current_time, dictGet, h, hc, List.lookup, strftimeYmdHMSZz, str_append_assoc]

/-- Witness for C7 at `"New York"` with the concrete clock reading
2025-01-02 03:04:05 EST-0500. -/
theorem time_success_report_format_witness :
    dictGet
        (get_current_time ⟨ClockOutcome.ok ⟨2025, 1, 2, 3, 4, 5, "EST", "-0500"⟩⟩ "New York")
        "status" = some "success" ∧
    ∃ pre d mid t suf,
      dictGet
          (get_current_time ⟨ClockOutcome.ok ⟨2025, 1, 2, 3, 4, 5, "EST", "-0500"⟩⟩ "New York")
          "report" = some (pre ++ d ++ mid ++ t ++ suf) ∧
      isDateString d = true ∧ isTimeString t = true :=
  time_success_report_format ⟨ClockOutcome.ok ⟨2025, 1, 2, 3, 4, 5, "EST", "-0500"⟩⟩
    "New York" ⟨2025, 1, 2, 3, 4, 5, "EST", "-0500"⟩ (by decide) rfl

/-- Claim C8: `get_weather` is deterministic — its result depends only on the
input string, not on the ambient world (clock, timezone database): two calls
with the same input in any two worlds return the identical mapping. -/
theorem weather_deterministic (w₁ w₂ : World) (city : String) :
    get_weather w₁ city = get_weather w₂ city := rfl

/-- Claim C9: matching performs no normalization beyond lowercasing — every
input whose lowercasing differs from `"new york"` (for example with extra
whitespace or punctuation) makes both tools return the error variant, with no
`"report"` key at all. -/
theorem lowercase_only_normalization (w : World) (city : String)
    (h : pyLower city ≠ "new york") :
    dictGet (get_weather w city) "status" = some "error" ∧
    dictGet (get_weather w city) "report" = none ∧
    dictGet (get_current_time w city) "status" = some "error" ∧
    dictGet (get_current_time w city) "report" = none := by
  simp [get_weather, get_current_time, dictGet, List.lookup, h]

/-- Witness for C9 at `" new york "` (leading and trailing whitespace). -/
theorem lowercase_only_normalization_witness :
    dictGet (get_weather ⟨ClockOutcome.fail "e"⟩ " new york ") "status" = some "error" ∧
    dictGet (get_weather ⟨ClockOutcome.fail "e"⟩ " new york ") "report" = none ∧
    dictGet (get_current_time ⟨ClockOutcome.fail "e"⟩ " new york ") "status" = some "error" ∧
    dictGet (get_current_time ⟨ClockOutcome.fail "e"⟩ " new york ") "report" = none :=
  lowercase_only_normalization ⟨ClockOutcome.fail "e"⟩ " new york " (by decide)

/-- Claim C10: on success `get_current_time` echoes the caller's exact input
casing — the report is `The current time in <city> is ...` with the original
`city` — while `get_weather` returns its fixed report, which names
`"New York"` regardless of the input's casing. -/
theorem time_report_echoes_input (w : World) (city : String) (dt : ZonedDateTime)
    (h : pyLower city = "new york") (hc : w.clock = ClockOutcome.ok dt) :
    (∃ rest, dictGet (get_current_time w city) "report" =
        some ("The current time in " ++ city ++ " is " ++ rest)) ∧
    dictGet (get_weather w city) "report" = some weatherReport ∧
    (∃ pre suf, weatherReport = pre ++ "New York" ++ suf) := by
  refine ⟨⟨strftimeYmdHMSZz dt, ?_⟩, ?_, "The weather in ",
    " is sunny with a temperature of 25 degrees Celsius (77 degrees Fahrenheit).", ?_⟩
  · simp [get_current_time, dictGet, h, hc, List.lookup]
  · simp [get_weather, dictGet, h, List.lookup]
  · decide

/-- Witness for C10 at `"NEW YORK"`: the time report opens with the caller's
exact casing. -/
theorem time_report_echoes_input_witness :
    (∃ rest, dictGet
        (get_current_time ⟨ClockOutcome.ok ⟨2025, 1, 2, 3, 4, 5, "EST", "-0500"⟩⟩ "NEW YORK")
        "report" = some ("The current time in " ++ "NEW YORK" ++ " is " ++ rest)) ∧
    dictGet (get_weather ⟨ClockOutcome.ok ⟨2025, 1, 2, 3, 4, 5, "EST", "-0500"⟩⟩ "NEW YORK")
        "report" = some weatherReport ∧
    (∃ pre suf, weatherReport = pre ++ "New York" ++ suf) :=
  time_report_echoes_input ⟨ClockOutcome.ok ⟨2025, 1, 2, 3, 4, 5, "EST", "-0500"⟩⟩
    "NEW YORK" ⟨2025, 1, 2, 3, 4, 5, "EST", "-0500"⟩ (by decide) rfl
